import Mathlib

/-!
Shallow embedding of the request handler in src/lambda/lambda.go.

The Go program is an AWS Lambda handler that routes HTTP requests to a read
path (DynamoDB GetItem / Scan) and a write path (DynamoDB PutItem), mapping
between a JSON wire representation of a "Car" record and DynamoDB's tagged
attribute-value representation.

Modelling choices:
* DynamoDB is modelled as a list of items (an item is an association list
  from attribute names to tagged attribute values); GetItem matches on the
  "ID" string attribute, PutItem replaces any item with the same "ID"
  attribute.  This is the "storage capability that returns what was put"
  assumed by the round-trip claims; the error returns of the SDK calls
  (network failures and the like) are not modelled, since every claim under
  consideration assumes the storage calls succeed.
* A Go panic from a failed unchecked type assertion
  (item["ID"].(*types.AttributeValueMemberS)) is modelled by the handler
  returning none instead of a response: the invocation crashes without
  producing an HTTP response.
* The JSON request body is modelled at the level of a JSON value tree;
  a body that is not syntactically valid JSON is modelled as none.
* Go's json.Unmarshal into the Car struct is modelled field by field:
  unknown object keys are ignored, keys are matched against the four field
  tags case-insensitively (Go prefers an exact match but accepts an
  ASCII-case-insensitive one; since the four tags are all lowercase the two
  rules coincide with a single lowercase comparison), a JSON null leaves a
  field at its zero value, and a type mismatch is an unmarshalling error.
  Go continues decoding after a type error and reports the first error at
  the end; since the handler discards the partially decoded value whenever
  an error is reported, aborting at the first error is observably the same.
* Go's fmt.Sprintf("%d", year) and strconv.Atoi are modelled as decimal
  printing and parsing of an unbounded integer (Year never takes part in
  arithmetic, so 64-bit wraparound is irrelevant to every claim).
* os.Getenv is a total function from names to strings returning "" for an
  absent variable, exactly as in Go, and the environment is passed as an
  explicit argument.
-/

namespace AwsSdkApi

/-- JSON value tree (the result of parsing a request body, and the shape of
a marshalled response body). -/
inductive Json where
  | null : Json
  | bool (b : Bool) : Json
  | num (n : Int) : Json
  | str (s : String) : Json
  | arr (elems : List Json) : Json
  | obj (fields : List (String × Json)) : Json

/-- The Car struct of lambda.go (JSON tags id, make, model, year). -/
structure Car where
  ID : String
  Make : String
  Model : String
  Year : Int
  deriving DecidableEq

/-- DynamoDB attribute values as used by the program:
AttributeValueMemberS (a string) and AttributeValueMemberN (a number,
carried on the wire as a decimal string). -/
inductive AttributeValue where
  | S (value : String) : AttributeValue
  | N (value : String) : AttributeValue
  deriving DecidableEq

/-- A stored item: a map from attribute names to attribute values,
modelled as an association list (first binding wins, as in a Go map whose
keys are unique). -/
abbrev Item := List (String × AttributeValue)

/-- Go map indexing item["k"]: the first binding for k, if any. -/
def attrLookup (item : Item) (k : String) : Option AttributeValue :=
  (item.find? (fun kv => kv.1 == k)).map (fun kv => kv.2)

/-- The unchecked type assertion v.(*types.AttributeValueMemberS).Value:
some value when the attribute is present and string-tagged, none (a Go
panic) otherwise. -/
def asS : Option AttributeValue → Option String
  | some (.S v) => some v
  | _ => none

/-- Whether an attribute lookup found a number-tagged value (the ok result
of the checked assertion v.(*types.AttributeValueMemberN)). -/
def isNAttr : Option AttributeValue → Bool
  | some (.N _) => true
  | _ => false

/-! ### Decimal printing and parsing (fmt.Sprintf "%d" and strconv.Atoi) -/

/-- The character for a decimal digit d < 10. -/
def digitChar (d : Nat) : Char := Char.ofNat (48 + d)

/-- Decimal digits of n, least significant first, by fuel-guarded
recursion so that it evaluates by kernel reduction; equal to
Nat.digits 10 n when the fuel is at least n (toDecAux_eq_digits). -/
def toDecAux : Nat → Nat → List Nat
  | 0, _ => []
  | _ + 1, 0 => []
  | fuel + 1, n + 1 => (n + 1) % 10 :: toDecAux fuel ((n + 1) / 10)

/-- The decimal digit characters of a natural number, most significant
first ("0" for 0). -/
def natToDecChars (n : Nat) : List Char :=
  if n = 0 then ['0'] else ((toDecAux n n).reverse.map digitChar)

/-- Modelled from Go fmt.Sprintf("%d", n): the decimal representation of an
integer, with a leading minus sign when negative. -/
def intToDecString (n : Int) : String :=
  if n < 0 then ⟨'-' :: natToDecChars n.natAbs⟩ else ⟨natToDecChars n.toNat⟩

/-- A decimal digit character, as a digit value. -/
def charDigit (c : Char) : Option Nat :=
  if '0' ≤ c ∧ c ≤ '9' then some (c.toNat - 48) else none

/-- Accumulating decimal parse; none on the first non-digit character. -/
def digitsVal : Nat → List Char → Option Nat
  | acc, [] => some acc
  | acc, c :: cs =>
    match charDigit c with
    | some d => digitsVal (10 * acc + d) cs
    | none => none

/-- Parse a non-empty all-digit string as a natural number. -/
def parseDigits : List Char → Option Nat
  | [] => none
  | c :: cs => digitsVal 0 (c :: cs)

/-- strconv.Atoi on the characters of the string: an optional sign
followed by at least one decimal digit; none models the error return. -/
def go_atoiChars : List Char → Option Int
  | [] => none
  | c :: cs =>
    if c = '-' then (parseDigits cs).map (fun m => -(Int.ofNat m))
    else if c = '+' then (parseDigits cs).map (fun m => Int.ofNat m)
    else (parseDigits (c :: cs)).map (fun m => Int.ofNat m)

/-- Modelled from Go strconv.Atoi (year is modelled as an unbounded
integer, so the range errors of 64-bit Atoi do not arise). -/
def go_atoi (s : String) : Option Int := go_atoiChars s.data

/-! ### JSON encoding and decoding of Car -/

/-- json.Marshal of a Car value: the four fields in declaration order. -/
def encodeCar (c : Car) : Json :=
  .obj [("id", .str c.ID), ("make", .str c.Make),
        ("model", .str c.Model), ("year", .num c.Year)]

/-- The four struct fields of Car. -/
inductive CarField where
  | id | make | model | year
  deriving DecidableEq

/-- ASCII lowercase of a string (Char.toLower lowers exactly the ASCII
uppercase letters). -/
def asciiLower (s : String) : String := ⟨s.data.map Char.toLower⟩

/-- json.Unmarshal key-to-field matching: a key selects the field whose
JSON tag it equals up to ASCII case (Go prefers an exact match and falls
back to a case-insensitive one; the tags being lowercase, both collapse to
this single test); an unmatched key is ignored. -/
def fieldOf (k : String) : Option CarField :=
  if asciiLower k = "id" then some .id
  else if asciiLower k = "make" then some .make
  else if asciiLower k = "model" then some .model
  else if asciiLower k = "year" then some .year
  else none

/-- Unmarshal one matched key/value pair into the struct: null leaves the
field alone, a string value fills a string field, a number fills the int
field, anything else is an UnmarshalTypeError. -/
def setField (c : Car) (f : CarField) (v : Json) : Except String Car :=
  match f, v with
  | _, .null => .ok c
  | .id, .str s => .ok { c with ID := s }
  | .make, .str s => .ok { c with Make := s }
  | .model, .str s => .ok { c with Model := s }
  | .year, .num n => .ok { c with Year := n }
  | _, _ => .error "cannot unmarshal"

/-- Unmarshal the key/value pairs of a JSON object into a Car, in order
(a later duplicate key overwrites an earlier one, as in Go). -/
def decodeFields (c : Car) : List (String × Json) → Except String Car
  | [] => .ok c
  | (k, v) :: rest =>
    match fieldOf k with
    | none => decodeFields c rest
    | some f =>
      match setField c f v with
      | .ok c2 => decodeFields c2 rest
      | .error e => .error e

/-- Modelled from Go json.Unmarshal([]byte(req.Body), &item) with item a
Car: a JSON object is decoded field by field starting from the zero Car, a
JSON null leaves the zero Car, and any other top-level value is an error. -/
def decodeCar (j : Json) : Except String Car :=
  match j with
  | .obj kvs => decodeFields ⟨"", "", "", 0⟩ kvs
  | .null => .ok ⟨"", "", "", 0⟩
  | _ => .error "cannot unmarshal"

/-! ### Requests, responses, storage -/

/-- The parts of events.APIGatewayV2HTTPRequest the program reads.  The
body is the parsed JSON value, or none for a body that is not valid JSON. -/
structure APIGatewayV2HTTPRequest where
  method : String
  queryStringParameters : List (String × String)
  body : Option Json

/-- Go map indexing req.QueryStringParameters["id"]: the bound value, or
the zero value "" when the key is absent. -/
def queryGet (req : APIGatewayV2HTTPRequest) (k : String) : String :=
  ((req.queryStringParameters.find? (fun kv => kv.1 == k)).map
    (fun kv => kv.2)).getD ""

/-- A response body: either plain text or a marshalled JSON value. -/
inductive ResponseBody where
  | text (s : String) : ResponseBody
  | json (j : Json) : ResponseBody

/-- events.APIGatewayV2HTTPResponse as the program builds it. -/
structure APIGatewayV2HTTPResponse where
  statusCode : Nat
  body : ResponseBody
  headers : List (String × String)

/-- One call made to the storage capability. -/
inductive StorageCall where
  | scan : StorageCall
  | getItem (id : String) : StorageCall
  | putItem (item : Item) : StorageCall

/-- DynamoDB GetItem keyed on the "ID" string attribute: the first stored
item whose "ID" attribute is the string id. -/
def dbGet (tbl : List Item) (id : String) : Option Item :=
  tbl.find? (fun it => decide (attrLookup it "ID" = some (.S id)))

/-- DynamoDB PutItem: a full-item overwrite of any stored item having the
same "ID" attribute. -/
def dbPut (tbl : List Item) (item : Item) : List Item :=
  item :: tbl.filter (fun it =>
    decide (¬ attrLookup it "ID" = attrLookup item "ID"))

/-- The scan-path item mapping of handleGet (lambda.go lines 77-88): Year
is zero-filled unless present as a number attribute (an Atoi error is
discarded, leaving 0), while ID, Make and Model go through unchecked type
assertions — none models the panic when one of them is absent or not
string-tagged. -/
def carFromItemScan (item : Item) : Option Car :=
  let year : Int :=
    match attrLookup item "Year" with
    | some (.N v) => (go_atoi v).getD 0
    | _ => 0
  match asS (attrLookup item "ID"), asS (attrLookup item "Make"),
        asS (attrLookup item "Model") with
  | some i, some mk, some md => some ⟨i, mk, md, year⟩
  | _, _, _ => none

/-- The scan loop over out.Items: the mapped records in order; none as soon
as one item panics. -/
def carsFromScan : List Item → Option (List Car)
  | [] => some []
  | it :: rest =>
    match carFromItemScan it with
    | none => none
    | some c => (carsFromScan rest).map (fun cs => c :: cs)

/-- handleGet of lambda.go.  Returns the response (none for a panic) and
the storage calls made; the table is never modified by this path. -/
def handleGet (env : String → String) (tbl : List Item)
    (req : APIGatewayV2HTTPRequest) :
    Option APIGatewayV2HTTPResponse × List StorageCall :=
  let id := queryGet req "id"
  let tableNameEnv := env "TABLE_NAME"
  if tableNameEnv = "" then
    (some ⟨500, .text "TABLE_NAME environment variable is not set", []⟩, [])
  else if id = "" then
    match carsFromScan tbl with
    | none => (none, [.scan])
    | some cars =>
      (some ⟨200, .json (.arr (cars.map encodeCar)),
             [("Content-Type", "application/json")]⟩, [.scan])
  else
    match dbGet tbl id with
    | none => (some ⟨404, .text "item not found", []⟩, [.getItem id])
    | some it =>
      match attrLookup it "Year" with
      | some (.N v) =>
        match asS (attrLookup it "ID"), asS (attrLookup it "Make"),
              asS (attrLookup it "Model") with
        | some i, some mk, some md =>
          (some ⟨200, .json (encodeCar ⟨i, mk, md, (go_atoi v).getD 0⟩),
                 [("Content-Type", "application/json")]⟩, [.getItem id])
        | _, _, _ => (none, [.getItem id])
      | _ =>
        (some ⟨500, .text "invalid year field", []⟩, [.getItem id])

/-- The storage representation written by handlePost: four attributes,
strings stored as S and Year rendered as a decimal string stored as N. -/
def itemOfCar (c : Car) : Item :=
  [("ID", .S c.ID), ("Make", .S c.Make), ("Model", .S c.Model),
   ("Year", .N (intToDecString c.Year))]

/-- handlePost of lambda.go.  Returns the response, the table after the
request, and the storage calls made. -/
def handlePost (env : String → String) (tbl : List Item)
    (req : APIGatewayV2HTTPRequest) :
    Option APIGatewayV2HTTPResponse × List Item × List StorageCall :=
  match req.body with
  | none => (some ⟨400, .text "invalid request body", []⟩, tbl, [])
  | some j =>
    match decodeCar j with
    | .error _ => (some ⟨400, .text "invalid request body", []⟩, tbl, [])
    | .ok item =>
      if env "TABLE_NAME" = "" then
        (some ⟨500, .text "TABLE_NAME environment variable is not set", []⟩,
         tbl, [])
      else
        (some ⟨201, .text ("item " ++ item.ID ++ " created"),
               [("Content-Type", "text/plain")]⟩,
         dbPut tbl (itemOfCar item), [.putItem (itemOfCar item)])

/-- The top-level handler of lambda.go: dispatch on the HTTP method. -/
def handler (env : String → String) (tbl : List Item)
    (req : APIGatewayV2HTTPRequest) :
    Option APIGatewayV2HTTPResponse × List Item × List StorageCall :=
  if req.method = "GET" then
    let r := handleGet env tbl req
    (r.1, tbl, r.2)
  else if req.method = "POST" then
    handlePost env tbl req
  else
    (some ⟨405, .text "method not allowed", []⟩, tbl, [])


/-! ### Correctness of the decimal codec -/

theorem toDecAux_eq_digits : ∀ fuel n, n ≤ fuel → toDecAux fuel n = Nat.digits 10 n := by
  intro fuel
  induction fuel with
  | zero =>
    intro n hn
    interval_cases n
    simp [toDecAux]
  | succ f ih =>
    intro n hn
    match n with
    | 0 => simp [toDecAux]
    | m + 1 =>
      rw [toDecAux, Nat.digits_def' (by norm_num : (1:ℕ) < 10) (Nat.succ_pos m)]
      congr 1
      exact ih _ (Nat.le_of_lt_succ (Nat.lt_of_lt_of_le
        (Nat.div_lt_self (Nat.succ_pos m) (by norm_num)) hn))

theorem charDigit_digitChar {d : Nat} (hd : d < 10) :
    charDigit (digitChar d) = some d := by
  interval_cases d <;> decide

theorem digitChar_ne_minus {d : Nat} (hd : d < 10) : digitChar d ≠ '-' := by
  interval_cases d <;> decide

theorem digitChar_ne_plus {d : Nat} (hd : d < 10) : digitChar d ≠ '+' := by
  interval_cases d <;> decide

theorem digitsVal_map_digitChar :
    ∀ (ds : List Nat) (a : Nat), (∀ d ∈ ds, d < 10) →
      digitsVal a (ds.map digitChar) =
        some (ds.foldl (fun x d => 10 * x + d) a) := by
  intro ds
  induction ds with
  | nil => intro a _; rfl
  | cons d rest ih =>
    intro a hall
    rw [List.map_cons, digitsVal, charDigit_digitChar (hall d (by simp))]
    exact ih _ (fun x hx => hall x (by simp [hx]))

theorem foldl_reverse_ofDigits :
    ∀ (l : List Nat) (a : Nat),
      (l.reverse).foldl (fun x d => 10 * x + d) a =
        a * 10 ^ l.length + Nat.ofDigits 10 l := by
  intro l
  induction l with
  | nil => intro a; simp [Nat.ofDigits_nil]
  | cons d rest ih =>
    intro a
    rw [List.reverse_cons, List.foldl_append, ih]
    simp only [List.foldl, Nat.ofDigits_cons, List.length_cons]
    ring

theorem parseDigits_natToDecChars (n : Nat) :
    parseDigits (natToDecChars n) = some n := by
  by_cases h0 : n = 0
  · subst h0; decide
  · have hne : Nat.digits 10 n ≠ [] := Nat.digits_ne_nil_iff_ne_zero.mpr h0
    rw [natToDecChars, if_neg h0, toDecAux_eq_digits n n le_rfl]
    have hlt : ∀ d ∈ (Nat.digits 10 n).reverse, d < 10 := by
      intro d hd
      exact Nat.digits_lt_base (by norm_num) (List.mem_reverse.mp hd)
    have hv := digitsVal_map_digitChar ((Nat.digits 10 n).reverse) 0 hlt
    have hfold := foldl_reverse_ofDigits (Nat.digits 10 n) 0
    rw [hfold, Nat.zero_mul, Nat.zero_add, Nat.ofDigits_digits] at hv
    have hmne : ((Nat.digits 10 n).reverse.map digitChar) ≠ [] := by
      simp [hne]
    match hm : (Nat.digits 10 n).reverse.map digitChar with
    | [] => exact absurd hm hmne
    | c :: cs => rw [parseDigits, ← hm, hv]

theorem natToDecChars_all_digits {n : Nat} {c : Char} (hc : c ∈ natToDecChars n) :
    ∃ d, d < 10 ∧ c = digitChar d := by
  rw [natToDecChars] at hc
  by_cases h0 : n = 0
  · rw [if_pos h0] at hc
    simp at hc
    exact ⟨0, by norm_num, by rw [hc]; rfl⟩
  · rw [if_neg h0, toDecAux_eq_digits n n le_rfl] at hc
    obtain ⟨d, hd, rfl⟩ := List.mem_map.mp hc
    exact ⟨d, Nat.digits_lt_base (by norm_num) (List.mem_reverse.mp hd), rfl⟩

theorem natToDecChars_ne_nil (n : Nat) : natToDecChars n ≠ [] := by
  rw [natToDecChars]
  by_cases h0 : n = 0
  · rw [if_pos h0]; simp
  · rw [if_neg h0, toDecAux_eq_digits n n le_rfl]
    simp [Nat.digits_ne_nil_iff_ne_zero.mpr h0]

theorem go_atoiChars_minus (cs : List Char) :
    go_atoiChars ('-' :: cs) = (parseDigits cs).map (fun m => -(Int.ofNat m)) := by
  simp [go_atoiChars]

theorem go_atoiChars_digit {c : Char} (h1 : c ≠ '-') (h2 : c ≠ '+') (cs : List Char) :
    go_atoiChars (c :: cs) = (parseDigits (c :: cs)).map (fun m => Int.ofNat m) := by
  rw [go_atoiChars, if_neg h1, if_neg h2]

theorem go_atoi_intToDecString (z : Int) :
    go_atoi (intToDecString z) = some z := by
  rw [intToDecString]
  by_cases hz : z < 0
  · rw [if_pos hz]
    show go_atoiChars ('-' :: natToDecChars z.natAbs) = some z
    rw [go_atoiChars_minus, parseDigits_natToDecChars]
    simp only [Option.map_some']
    congr 1
    simp only [Int.ofNat_eq_natCast]
    omega
  · rw [if_neg hz]
    show go_atoiChars (natToDecChars z.toNat) = some z
    match hm : natToDecChars z.toNat with
    | [] => exact absurd hm (natToDecChars_ne_nil _)
    | c :: cs =>
      obtain ⟨d, hd, rfl⟩ := natToDecChars_all_digits (hm ▸ List.mem_cons_self c cs)
      rw [go_atoiChars_digit (digitChar_ne_minus hd) (digitChar_ne_plus hd),
        ← hm, parseDigits_natToDecChars]
      simp only [Option.map_some']
      congr 1
      simp only [Int.ofNat_eq_natCast]
      omega


/-! ### Helper lemmas about the record mapper and the storage model -/

/-- Unmarshalling the marshalled form of a record gives back the record:
the four keys match their fields exactly and carry values of the right
kinds. -/
theorem decode_encode (c : Car) : decodeCar (encodeCar c) = .ok c := rfl

theorem attrLookup_itemOfCar_ID (c : Car) :
    attrLookup (itemOfCar c) "ID" = some (.S c.ID) := rfl

theorem attrLookup_itemOfCar_Make (c : Car) :
    attrLookup (itemOfCar c) "Make" = some (.S c.Make) := rfl

theorem attrLookup_itemOfCar_Model (c : Car) :
    attrLookup (itemOfCar c) "Model" = some (.S c.Model) := rfl

theorem attrLookup_itemOfCar_Year (c : Car) :
    attrLookup (itemOfCar c) "Year" = some (.N (intToDecString c.Year)) := rfl

/-- Reading back the key just written returns the item just written. -/
theorem dbGet_dbPut_self (tbl : List Item) (c : Car) :
    dbGet (dbPut tbl (itemOfCar c)) c.ID = some (itemOfCar c) := by
  rw [dbGet, dbPut]
  rw [List.find?_cons_of_pos]
  simp [attrLookup_itemOfCar_ID]

/-- A table whose items all map cleanly scans to a list of records. -/
theorem carsFromScan_of_all_isSome :
    ∀ tbl : List Item, (∀ it ∈ tbl, (carFromItemScan it).isSome) →
      ∃ cars, carsFromScan tbl = some cars := by
  intro tbl
  induction tbl with
  | nil => intro _; exact ⟨[], rfl⟩
  | cons it rest ih =>
    intro hall
    obtain ⟨c, hc⟩ := Option.isSome_iff_exists.mp (hall it (by simp))
    obtain ⟨cars, hcars⟩ := ih (fun x hx => hall x (by simp [hx]))
    exact ⟨c :: cars, by rw [carsFromScan, hc, hcars]; rfl⟩

/-- Every successfully mapped member of the table appears in the scan
result. -/
theorem mem_carsFromScan :
    ∀ (tbl : List Item) (cars : List Car) (it : Item) (c : Car),
      carsFromScan tbl = some cars → it ∈ tbl →
      carFromItemScan it = some c → c ∈ cars := by
  intro tbl
  induction tbl with
  | nil => intro cars it c _ hmem; cases hmem
  | cons hd rest ih =>
    intro cars it c hscan hmem hmap
    rw [carsFromScan] at hscan
    match hhd : carFromItemScan hd with
    | none => rw [hhd] at hscan; cases hscan
    | some c0 =>
      rw [hhd] at hscan
      match hrest : carsFromScan rest with
      | none => rw [hrest] at hscan; cases hscan
      | some cars0 =>
        rw [hrest] at hscan
        simp only [Option.map_some'] at hscan
        cases hscan
        rcases List.mem_cons.mp hmem with h | h
        · subst h
          rw [hhd] at hmap
          cases hmap
          exact List.mem_cons_self _ _
        · exact List.mem_cons_of_mem _ (ih cars0 it c hrest h hmap)

/-- An object carrying a key that matches the year field with a value that
is neither a number nor null fails to unmarshal, whatever the partially
decoded record was when the key is reached. -/
theorem decodeFields_year_error :
    ∀ (kvs : List (String × Json)) (c : Car) (k : String) (v : Json),
      (k, v) ∈ kvs → fieldOf k = some .year →
      (∀ n, v ≠ .num n) → v ≠ .null →
      ∃ e, decodeFields c kvs = .error e := by
  intro kvs
  induction kvs with
  | nil => intro c k v hmem; cases hmem
  | cons hd rest ih =>
    obtain ⟨k0, v0⟩ := hd
    intro c k v hmem hk hnum hnull
    rcases List.mem_cons.mp hmem with h | h
    · injection h with h1 h2
      subst h1
      subst h2
      have hset : setField c .year v = .error "cannot unmarshal" := by
        cases v with
        | null => exact absurd rfl hnull
        | num n => exact absurd rfl (hnum n)
        | bool b => rfl
        | str s => rfl
        | arr l => rfl
        | obj l => rfl
      refine ⟨"cannot unmarshal", ?_⟩
      simp only [decodeFields, hk, hset]
    · simp only [decodeFields]
      match hf : fieldOf k0 with
      | none =>
        simp only [hf]
        exact ih c k v h hk hnum hnull
      | some f =>
        simp only [hf]
        match hs : setField c f v0 with
        | .ok c2 =>
          simp only [hs]
          exact ih c2 k v h hk hnum hnull
        | .error e =>
          simp only [hs]
          exact ⟨e, rfl⟩

/-- Keys that match no field do not affect unmarshalling: decoding a
key list is decoding its matched sublist. -/
theorem decodeFields_filter :
    ∀ (kvs : List (String × Json)) (c : Car),
      decodeFields c (kvs.filter (fun kv => (fieldOf kv.1).isSome)) =
        decodeFields c kvs := by
  intro kvs
  induction kvs with
  | nil => intro c; rfl
  | cons hd rest ih =>
    obtain ⟨k0, v0⟩ := hd
    intro c
    match hf : fieldOf k0 with
    | none =>
      rw [List.filter_cons_of_neg (by simp [hf])]
      simp only [decodeFields, hf]
      exact ih c
    | some f =>
      rw [List.filter_cons_of_pos (by simp [hf])]
      simp only [decodeFields, hf]
      match hs : setField c f v0 with
      | .ok c2 =>
        simp only [hs]
        exact ih c2
      | .error e =>
        simp only [hs]


/-! ### Claim theorems -/

/-- C9: a request whose HTTP method is neither GET nor POST is answered
405 with the plain-text body "method not allowed", whatever the query
parameters and body, and no storage call is made and the table is
unchanged. -/
theorem method_not_allowed_405 (env : String → String) (tbl : List Item)
    (req : APIGatewayV2HTTPRequest)
    (hget : req.method ≠ "GET") (hpost : req.method ≠ "POST") :
    handler env tbl req =
      (some ⟨405, .text "method not allowed", []⟩, tbl, []) := by
  rw [handler, if_neg hget, if_neg hpost]

/-- Witness for C9 at method DELETE. -/
theorem method_not_allowed_405_witness :
    handler (fun _ => "T") [] ⟨"DELETE", [], none⟩ =
      (some ⟨405, .text "method not allowed", []⟩, [], []) :=
  method_not_allowed_405 (fun _ => "T") [] ⟨"DELETE", [], none⟩
    (by decide) (by decide)

/-- C7: a GET without an id parameter, with the table name configured,
against an empty table answers 200 with the empty JSON array as body
(shape Json.arr [], which serializes to "[]", distinct from Json.null),
never 404 or 500. -/
theorem scan_empty_table_200 (env : String → String)
    (ps : List (String × String)) (b : Option Json)
    (henv : env "TABLE_NAME" ≠ "") (hq : queryGet ⟨"GET", ps, b⟩ "id" = "") :
    handler env [] ⟨"GET", ps, b⟩ =
      (some ⟨200, .json (.arr []), [("Content-Type", "application/json")]⟩,
       [], [.scan]) := by
  simp [handler, handleGet, hq, henv, carsFromScan]

/-- Witness for C7 at a request with no query parameters. -/
theorem scan_empty_table_200_witness :
    handler (fun _ => "T") [] ⟨"GET", [], none⟩ =
      (some ⟨200, .json (.arr []), [("Content-Type", "application/json")]⟩,
       [], [.scan]) :=
  scan_empty_table_200 (fun _ => "T") [] none (by decide) (by decide)

/-- C8 (amended): a GET whose id parameter is nonempty and matches no
stored item answers 404 with the plain body "item not found"; nonempty is
required because Go map indexing returns "" for an absent key, so the code
cannot distinguish an empty id parameter from no id parameter and treats
it as a full scan. -/
theorem get_unknown_id_404 (env : String → String) (tbl : List Item)
    (ps : List (String × String)) (b : Option Json) (id : String)
    (henv : env "TABLE_NAME" ≠ "") (hid : id ≠ "")
    (hq : queryGet ⟨"GET", ps, b⟩ "id" = id) (hmiss : dbGet tbl id = none) :
    handler env tbl ⟨"GET", ps, b⟩ =
      (some ⟨404, .text "item not found", []⟩, tbl, [.getItem id]) := by
  simp [handler, handleGet, hq, henv, hid, hmiss]

/-- Witness for C8 at id "missing" on an empty table. -/
theorem get_unknown_id_404_witness :
    handler (fun _ => "T") [] ⟨"GET", [("id", "missing")], none⟩ =
      (some ⟨404, .text "item not found", []⟩, [], [.getItem "missing"]) :=
  get_unknown_id_404 (fun _ => "T") [] [("id", "missing")] none "missing"
    (by decide) (by decide) rfl rfl

/-- C8 counterexample: a GET carrying an id parameter with the empty
value, for which the storage capability would report no matching item,
is answered 200 with a scan result, not 404. -/
theorem get_empty_id_counterexample :
    dbGet [] "" = none ∧
    (handler (fun _ => "T") [] ⟨"GET", [("id", "")], none⟩).1 =
      some ⟨200, .json (.arr []), [("Content-Type", "application/json")]⟩ ∧
    (200 : Nat) ≠ 404 :=
  ⟨rfl, rfl, by decide⟩

/-- C6 (amended): with the table-name environment variable absent, every
GET is answered 500 with no storage call and an unchanged table, and so is
every POST whose body decodes to a record; however a POST whose body fails
to parse or decode is answered 400 (the body is parsed before the
configuration is checked), so the 500 answer does not extend to every POST
body; a POST never makes a storage call nor changes the table when the
variable is absent. -/
theorem missing_env_500 (env : String → String) (tbl : List Item)
    (req : APIGatewayV2HTTPRequest) (henv : env "TABLE_NAME" = "") :
    (req.method = "GET" →
      handler env tbl req =
        (some ⟨500, .text "TABLE_NAME environment variable is not set", []⟩,
         tbl, [])) ∧
    (req.method = "POST" → ∀ j c, req.body = some j → decodeCar j = .ok c →
      handler env tbl req =
        (some ⟨500, .text "TABLE_NAME environment variable is not set", []⟩,
         tbl, [])) ∧
    (req.method = "POST" →
      (handler env tbl req).2.1 = tbl ∧ (handler env tbl req).2.2 = []) := by
  obtain ⟨m, ps, b⟩ := req
  refine ⟨?_, ?_, ?_⟩
  · intro hm
    simp only at hm
    subst hm
    simp [handler, handleGet, henv]
  · intro hm j c hb hdec
    simp only at hm hb
    subst hm
    subst hb
    simp [handler, handlePost, hdec, henv]
  · intro hm
    simp only at hm
    subst hm
    match b with
    | none => exact ⟨rfl, rfl⟩
    | some j =>
      match hdec : decodeCar j with
      | .error e => simp [handler, handlePost, hdec]
      | .ok c => simp [handler, handlePost, hdec, henv]

/-- Witness for C6: a GET and a decodable POST under a missing variable. -/
theorem missing_env_500_witness :
    handler (fun _ => "") [] ⟨"GET", [], none⟩ =
      (some ⟨500, .text "TABLE_NAME environment variable is not set", []⟩,
       [], []) ∧
    handler (fun _ => "") [] ⟨"POST", [], some (.obj [])⟩ =
      (some ⟨500, .text "TABLE_NAME environment variable is not set", []⟩,
       [], []) :=
  ⟨(missing_env_500 (fun _ => "") [] ⟨"GET", [], none⟩ rfl).1 rfl,
   (missing_env_500 (fun _ => "") [] ⟨"POST", [], some (.obj [])⟩ rfl).2.1
     rfl (.obj []) ⟨"", "", "", 0⟩ rfl rfl⟩

/-- C6 counterexample: with the variable absent, a POST whose body is not
valid JSON is answered 400, not a 500-class status. -/
theorem missing_env_bad_body_counterexample :
    (handler (fun _ => "") [] ⟨"POST", [], none⟩).1 =
      some ⟨400, .text "invalid request body", []⟩ ∧
    ¬ (500 ≤ 400 ∧ 400 < 600) :=
  ⟨rfl, by decide⟩


/-- Reading back a just-written record by its (nonempty) ID returns 200
with the record marshalled as the JSON body. -/
theorem handleGet_after_put (env : String → String) (tbl : List Item) (c : Car)
    (henv : env "TABLE_NAME" ≠ "") (hid : c.ID ≠ "") :
    handleGet env (dbPut tbl (itemOfCar c)) ⟨"GET", [("id", c.ID)], none⟩ =
      (some ⟨200, .json (encodeCar c), [("Content-Type", "application/json")]⟩,
       [.getItem c.ID]) := by
  have hq : queryGet ⟨"GET", [("id", c.ID)], none⟩ "id" = c.ID := by
    simp [queryGet]
  simp only [handleGet, hq]
  rw [if_neg henv, if_neg hid, dbGet_dbPut_self]
  simp only [attrLookup_itemOfCar_Year, attrLookup_itemOfCar_ID,
    attrLookup_itemOfCar_Make, attrLookup_itemOfCar_Model, asS,
    go_atoi_intToDecString]
  rfl

/-- Writing a decodable record body stores its attribute-map image. -/
theorem handlePost_table (env : String → String) (tbl : List Item)
    (ps : List (String × String)) (c : Car) (henv : env "TABLE_NAME" ≠ "") :
    handler env tbl ⟨"POST", ps, some (encodeCar c)⟩ =
      (some ⟨201, .text ("item " ++ c.ID ++ " created"),
             [("Content-Type", "text/plain")]⟩,
       dbPut tbl (itemOfCar c), [.putItem (itemOfCar c)]) := by
  simp [handler, handlePost, decode_encode, henv]

/-- C1 (amended): for every record R whose ID is nonempty, a POST of R's
JSON body followed by a GET with query parameter id = R.ID, against the
storage model that returns what was put, answers 200 with a JSON body that
decodes to a record equal to R.  Nonempty ID is required: the code routes
a GET whose id parameter is "" to the full-scan path, so the counterexample
record with ID "" reads back as a one-element JSON array instead. -/
theorem roundtrip_nonempty_id (env : String → String) (tbl : List Item)
    (R : Car) (henv : env "TABLE_NAME" ≠ "") (hid : R.ID ≠ "") :
    (handler env
        ((handler env tbl ⟨"POST", [], some (encodeCar R)⟩).2.1)
        ⟨"GET", [("id", R.ID)], none⟩).1 =
      some ⟨200, .json (encodeCar R), [("Content-Type", "application/json")]⟩ ∧
    decodeCar (encodeCar R) = .ok R := by
  have h1 : (handler env tbl ⟨"POST", [], some (encodeCar R)⟩).2.1 =
      dbPut tbl (itemOfCar R) := by
    rw [handlePost_table env tbl [] R henv]
  rw [h1]
  refine ⟨?_, decode_encode R⟩
  show (handleGet env (dbPut tbl (itemOfCar R)) ⟨"GET", [("id", R.ID)], none⟩).1 = _
  rw [handleGet_after_put env tbl R henv hid]

/-- Witness for C1 at the concrete scenario of the spec. -/
theorem roundtrip_nonempty_id_witness :
    (handler (fun _ => "T")
        ((handler (fun _ => "T") []
            ⟨"POST", [], some (encodeCar ⟨"c1", "Toyota", "Corolla", 2020⟩)⟩).2.1)
        ⟨"GET", [("id", "c1")], none⟩).1 =
      some ⟨200, .json (encodeCar ⟨"c1", "Toyota", "Corolla", 2020⟩),
            [("Content-Type", "application/json")]⟩ ∧
    decodeCar (encodeCar ⟨"c1", "Toyota", "Corolla", 2020⟩) =
      .ok ⟨"c1", "Toyota", "Corolla", 2020⟩ :=
  roundtrip_nonempty_id (fun _ => "T") [] ⟨"c1", "Toyota", "Corolla", 2020⟩
    (by decide) (by decide)

/-- C1 counterexample: the record with ID "" writes fine, but reading it
back with id = "" runs the scan path, and the 200 body is a one-element
JSON array, which does not decode to any record (decodeCar rejects a
top-level array). -/
theorem roundtrip_empty_id_counterexample :
    (handler (fun _ => "T")
        ((handler (fun _ => "T") []
            ⟨"POST", [], some (encodeCar ⟨"", "m", "d", 5⟩)⟩).2.1)
        ⟨"GET", [("id", "")], none⟩).1 =
      some ⟨200, .json (.arr [encodeCar ⟨"", "m", "d", 5⟩]),
            [("Content-Type", "application/json")]⟩ ∧
    decodeCar (.arr [encodeCar ⟨"", "m", "d", 5⟩]) = .error "cannot unmarshal" :=
  ⟨rfl, rfl⟩

/-- C5 (amended): for records A and B with B.ID = A.ID and A.ID nonempty,
writing A then B and reading A.ID returns B whole: the 200 JSON body is
exactly B's marshalled form, every field taken from B (the put is a
full-item overwrite, no merge).  Nonempty ID is required for the read for
the same reason as in the round-trip claim. -/
theorem overwrite_replaces_all_fields (env : String → String) (tbl : List Item)
    (A B : Car) (henv : env "TABLE_NAME" ≠ "") (hAB : B.ID = A.ID)
    (hid : A.ID ≠ "") :
    (handler env
        ((handler env
            ((handler env tbl ⟨"POST", [], some (encodeCar A)⟩).2.1)
            ⟨"POST", [], some (encodeCar B)⟩).2.1)
        ⟨"GET", [("id", A.ID)], none⟩).1 =
      some ⟨200, .json (encodeCar B), [("Content-Type", "application/json")]⟩ := by
  have h1 : (handler env tbl ⟨"POST", [], some (encodeCar A)⟩).2.1 =
      dbPut tbl (itemOfCar A) := by
    rw [handlePost_table env tbl [] A henv]
  have h2 : (handler env (dbPut tbl (itemOfCar A))
      ⟨"POST", [], some (encodeCar B)⟩).2.1 =
      dbPut (dbPut tbl (itemOfCar A)) (itemOfCar B) := by
    rw [handlePost_table env (dbPut tbl (itemOfCar A)) [] B henv]
  rw [h1, h2, ← hAB]
  show (handleGet env (dbPut (dbPut tbl (itemOfCar A)) (itemOfCar B))
      ⟨"GET", [("id", B.ID)], none⟩).1 = _
  rw [handleGet_after_put env (dbPut tbl (itemOfCar A)) B henv (hAB ▸ hid)]

/-- Witness for C5: two writes to id "x", read returns the second. -/
theorem overwrite_replaces_all_fields_witness :
    (handler (fun _ => "T")
        ((handler (fun _ => "T")
            ((handler (fun _ => "T") []
                ⟨"POST", [], some (encodeCar ⟨"x", "am", "ad", 1⟩)⟩).2.1)
            ⟨"POST", [], some (encodeCar ⟨"x", "bm", "bd", 2⟩)⟩).2.1)
        ⟨"GET", [("id", "x")], none⟩).1 =
      some ⟨200, .json (encodeCar ⟨"x", "bm", "bd", 2⟩),
            [("Content-Type", "application/json")]⟩ :=
  overwrite_replaces_all_fields (fun _ => "T") [] ⟨"x", "am", "ad", 1⟩
    ⟨"x", "bm", "bd", 2⟩ (by decide) rfl (by decide)

/-- C5 counterexample: for the ID-"" pair the read of A.ID is a scan, and
the 200 body is a JSON array rather than the record B. -/
theorem overwrite_empty_id_counterexample :
    (handler (fun _ => "T")
        ((handler (fun _ => "T")
            ((handler (fun _ => "T") []
                ⟨"POST", [], some (encodeCar ⟨"", "am", "ad", 1⟩)⟩).2.1)
            ⟨"POST", [], some (encodeCar ⟨"", "bm", "bd", 2⟩)⟩).2.1)
        ⟨"GET", [("id", "")], none⟩).1 =
      some ⟨200, .json (.arr [encodeCar ⟨"", "bm", "bd", 2⟩]),
            [("Content-Type", "application/json")]⟩ ∧
    decodeCar (.arr [encodeCar ⟨"", "bm", "bd", 2⟩]) = .error "cannot unmarshal" :=
  ⟨rfl, rfl⟩


/-- C2 (amended): a POST whose JSON-object body carries a key matching the
year field with a value that is neither a JSON number nor JSON null is
answered 400 with the plain body "invalid request body", with zero storage
calls and the table unchanged.  The original claim's missing-year case is
refuted by the counterexample: Go's json.Unmarshal leaves an absent field
at its zero value, so such a body is accepted and written with Year 0
(and a null year is likewise accepted, since unmarshalling null into a
field is a no-op). -/
theorem post_bad_year_rejected (env : String → String) (tbl : List Item)
    (ps : List (String × String)) (kvs : List (String × Json))
    (k : String) (v : Json)
    (hmem : (k, v) ∈ kvs) (hk : fieldOf k = some .year)
    (hnum : ∀ n, v ≠ .num n) (hnull : v ≠ .null) :
    handler env tbl ⟨"POST", ps, some (.obj kvs)⟩ =
      (some ⟨400, .text "invalid request body", []⟩, tbl, []) := by
  obtain ⟨e, he⟩ :=
    decodeFields_year_error kvs ⟨"", "", "", 0⟩ k v hmem hk hnum hnull
  simp [handler, handlePost, decodeCar, he]

/-- Witness for C2 at the body with year bound to the string "x". -/
theorem post_bad_year_rejected_witness :
    handler (fun _ => "T") []
        ⟨"POST", [], some (.obj [("id", .str "a"), ("year", .str "x")])⟩ =
      (some ⟨400, .text "invalid request body", []⟩, [], []) :=
  post_bad_year_rejected (fun _ => "T") [] []
    [("id", .str "a"), ("year", .str "x")] "year" (.str "x")
    (by simp) rfl (fun n h => Json.noConfusion h) (fun h => Json.noConfusion h)

/-- C2 counterexample: a POST whose body merely lacks the year key is not
rejected: it is answered 201 and one PutItem call stores the record with
Year zero-filled, contradicting both the 400 and the zero-storage-call
parts of the claim. -/
theorem post_missing_year_counterexample :
    handler (fun _ => "T") []
        ⟨"POST", [],
         some (.obj [("id", .str "a"), ("make", .str "m"),
                     ("model", .str "d")])⟩ =
      (some ⟨201, .text "item a created", [("Content-Type", "text/plain")]⟩,
       [[("ID", .S "a"), ("Make", .S "m"), ("Model", .S "d"), ("Year", .N "0")]],
       [.putItem [("ID", .S "a"), ("Make", .S "m"), ("Model", .S "d"),
                  ("Year", .N "0")]]) ∧
    (201 : Nat) ≠ 400 :=
  ⟨rfl, by decide⟩

/-- C10 (amended): object keys that match none of the four field tags --
where matching is ASCII-case-insensitive, as Go's json.Unmarshal accepts a
case-insensitive field-name match -- are silently ignored: two POST bodies
whose matched key/value pairs agree elementwise produce identical handler
results (same response, same stored table, same storage calls), and every
written item carries exactly the four attributes ID, Make, Model, Year.
The original claim, which reads field names literally, is refuted by the
counterexample with the extra key "ID". -/
theorem unmatched_fields_ignored (env : String → String) (tbl : List Item)
    (ps1 ps2 : List (String × String)) (kvs1 kvs2 : List (String × Json))
    (h : kvs1.filter (fun kv => (fieldOf kv.1).isSome) =
         kvs2.filter (fun kv => (fieldOf kv.1).isSome)) :
    (∀ c : Car, (itemOfCar c).map Prod.fst = ["ID", "Make", "Model", "Year"]) ∧
    handler env tbl ⟨"POST", ps1, some (.obj kvs1)⟩ =
      handler env tbl ⟨"POST", ps2, some (.obj kvs2)⟩ := by
  refine ⟨fun c => rfl, ?_⟩
  have hdec : decodeCar (.obj kvs1) = decodeCar (.obj kvs2) := by
    show decodeFields ⟨"", "", "", 0⟩ kvs1 = decodeFields ⟨"", "", "", 0⟩ kvs2
    rw [← decodeFields_filter kvs1, h, decodeFields_filter]
  show handlePost env tbl ⟨"POST", ps1, some (.obj kvs1)⟩ =
    handlePost env tbl ⟨"POST", ps2, some (.obj kvs2)⟩
  simp only [handlePost]
  rw [hdec]

/-- Witness for C10: adding the unmatched key "color" changes nothing. -/
theorem unmatched_fields_ignored_witness :
    (∀ c : Car, (itemOfCar c).map Prod.fst = ["ID", "Make", "Model", "Year"]) ∧
    handler (fun _ => "T") [] ⟨"POST", [], some (.obj [("id", .str "a")])⟩ =
      handler (fun _ => "T") []
        ⟨"POST", [], some (.obj [("id", .str "a"), ("color", .str "red")])⟩ :=
  unmatched_fields_ignored (fun _ => "T") [] [] []
    [("id", .str "a")] [("id", .str "a"), ("color", .str "red")] rfl

/-- C10 counterexample: the key "ID" is not one of the four literal names
id, make, model, year, yet it is not ignored: Go matches it to the id
field case-insensitively, so the stored item's ID attribute becomes "b"
instead of "a" -- two bodies differing only in this extra field store
different items. -/
theorem extra_field_case_counterexample :
    (handler (fun _ => "T") []
        ⟨"POST", [],
         some (.obj [("id", .str "a"), ("make", .str "m"),
                     ("model", .str "d"), ("year", .num 1)])⟩).2.1 =
      [[("ID", .S "a"), ("Make", .S "m"), ("Model", .S "d"), ("Year", .N "1")]] ∧
    (handler (fun _ => "T") []
        ⟨"POST", [],
         some (.obj [("id", .str "a"), ("make", .str "m"),
                     ("model", .str "d"), ("year", .num 1),
                     ("ID", .str "b")])⟩).2.1 =
      [[("ID", .S "b"), ("Make", .S "m"), ("Model", .S "d"), ("Year", .N "1")]] ∧
    ("a" : String) ≠ "b" :=
  ⟨rfl, rfl, by decide⟩

/-- C3 (amended): for a stored item whose ID, Make and Model are present
as string attributes, a missing or non-number-tagged Year attribute is
tolerated: the item maps to a record with Year zero-filled, and a scan
over a table of cleanly mapping items still answers 200.  The tolerance is
limited to Year: the counterexample shows an item with a missing Make
crashes the scan with no HTTP response (failed unchecked type assertion),
refuting the original claim for the other three attributes. -/
theorem scan_year_zero_fill (env : String → String) (tbl : List Item)
    (it : Item) (i m d : String)
    (henv : env "TABLE_NAME" ≠ "")
    (hall : ∀ x ∈ tbl, (carFromItemScan x).isSome)
    (hID : asS (attrLookup it "ID") = some i)
    (hMake : asS (attrLookup it "Make") = some m)
    (hModel : asS (attrLookup it "Model") = some d)
    (hYear : isNAttr (attrLookup it "Year") = false) :
    carFromItemScan it = some ⟨i, m, d, 0⟩ ∧
    ∃ cars, carsFromScan tbl = some cars ∧
      (handler env tbl ⟨"GET", [], none⟩).1 =
        some ⟨200, .json (.arr (cars.map encodeCar)),
              [("Content-Type", "application/json")]⟩ := by
  constructor
  · match hY : attrLookup it "Year" with
    | none => simp [carFromItemScan, hID, hMake, hModel, hY]
    | some (.S v) => simp [carFromItemScan, hID, hMake, hModel, hY]
    | some (.N v) => rw [hY] at hYear; simp [isNAttr] at hYear
  · obtain ⟨cars, hcars⟩ := carsFromScan_of_all_isSome tbl hall
    refine ⟨cars, hcars, ?_⟩
    simp [handler, handleGet, queryGet, henv, hcars]

/-- Witness for C3 at a one-item table whose item has no Year attribute. -/
theorem scan_year_zero_fill_witness :
    carFromItemScan [("ID", .S "a"), ("Make", .S "m"), ("Model", .S "d")] =
      some ⟨"a", "m", "d", 0⟩ ∧
    ∃ cars,
      carsFromScan [[("ID", .S "a"), ("Make", .S "m"), ("Model", .S "d")]] =
        some cars ∧
      (handler (fun _ => "T")
          [[("ID", .S "a"), ("Make", .S "m"), ("Model", .S "d")]]
          ⟨"GET", [], none⟩).1 =
        some ⟨200, .json (.arr (cars.map encodeCar)),
              [("Content-Type", "application/json")]⟩ :=
  scan_year_zero_fill (fun _ => "T")
    [[("ID", .S "a"), ("Make", .S "m"), ("Model", .S "d")]]
    [("ID", .S "a"), ("Make", .S "m"), ("Model", .S "d")] "a" "m" "d"
    (by decide) (by decide) rfl rfl rfl rfl

/-- C3 counterexample: a stored item lacking the Make attribute does not
map to a zero-valued record; its unchecked type assertion panics, and the
scan ends with no HTTP response at all (the invocation crashes). -/
theorem scan_missing_make_counterexample :
    carFromItemScan [("ID", AttributeValue.S "a")] = none ∧
    (handler (fun _ => "T") [[("ID", AttributeValue.S "a")]]
        ⟨"GET", [], none⟩).1 = none :=
  ⟨rfl, rfl⟩

/-- C4: reading by id an item whose Year attribute is absent or not
number-tagged answers 500 "invalid year field", while the scan path maps
the same item with Year zero-filled and includes it in the 200 response
("cannot be decoded as the expected numeric type" is read as the code's
test: the attribute is not a number-tagged value; a number-tagged
attribute whose digits fail to parse is zero-filled on both paths, the
Atoi error being discarded).  The scan half assumes the table's items all
map cleanly, since otherwise the scan crashes rather than responding. -/
theorem year_decode_get_vs_scan (env : String → String) (id : String)
    (it : Item) (henv : env "TABLE_NAME" ≠ "") (hid : id ≠ "")
    (hYear : isNAttr (attrLookup it "Year") = false) :
    (∀ tbl ps b, queryGet ⟨"GET", ps, b⟩ "id" = id → dbGet tbl id = some it →
      (handler env tbl ⟨"GET", ps, b⟩).1 =
        some ⟨500, .text "invalid year field", []⟩) ∧
    (∀ tbl i m d, it ∈ tbl → (∀ x ∈ tbl, (carFromItemScan x).isSome) →
      asS (attrLookup it "ID") = some i →
      asS (attrLookup it "Make") = some m →
      asS (attrLookup it "Model") = some d →
      ∃ cars, carsFromScan tbl = some cars ∧ Car.mk i m d 0 ∈ cars ∧
        (handler env tbl ⟨"GET", [], none⟩).1 =
          some ⟨200, .json (.arr (cars.map encodeCar)),
                [("Content-Type", "application/json")]⟩) := by
  constructor
  · intro tbl ps b hq hfound
    match hY : attrLookup it "Year" with
    | none => simp [handler, handleGet, hq, henv, hid, hfound, hY]
    | some (.S v) => simp [handler, handleGet, hq, henv, hid, hfound, hY]
    | some (.N v) => rw [hY] at hYear; simp [isNAttr] at hYear
  · intro tbl i m d hmem hall hID hMake hModel
    obtain ⟨cars, hcars⟩ := carsFromScan_of_all_isSome tbl hall
    have hthis : carFromItemScan it = some ⟨i, m, d, 0⟩ := by
      match hY : attrLookup it "Year" with
      | none => simp [carFromItemScan, hID, hMake, hModel, hY]
      | some (.S v) => simp [carFromItemScan, hID, hMake, hModel, hY]
      | some (.N v) => rw [hY] at hYear; simp [isNAttr] at hYear
    exact ⟨cars, hcars, mem_carsFromScan tbl cars it _ hcars hmem hthis,
      by simp [handler, handleGet, queryGet, henv, hcars]⟩

/-- Witness for C4 at an item whose Year attribute is string-tagged. -/
theorem year_decode_get_vs_scan_witness :
    (handler (fun _ => "T")
        [[("ID", .S "a"), ("Make", .S "m"), ("Model", .S "d"),
          ("Year", .S "bad")]]
        ⟨"GET", [("id", "a")], none⟩).1 =
      some ⟨500, .text "invalid year field", []⟩ ∧
    ∃ cars,
      carsFromScan
          [[("ID", .S "a"), ("Make", .S "m"), ("Model", .S "d"),
            ("Year", .S "bad")]] = some cars ∧
      Car.mk "a" "m" "d" 0 ∈ cars ∧
      (handler (fun _ => "T")
          [[("ID", .S "a"), ("Make", .S "m"), ("Model", .S "d"),
            ("Year", .S "bad")]]
          ⟨"GET", [], none⟩).1 =
        some ⟨200, .json (.arr (cars.map encodeCar)),
              [("Content-Type", "application/json")]⟩ :=
  ⟨(year_decode_get_vs_scan (fun _ => "T") "a"
      [("ID", .S "a"), ("Make", .S "m"), ("Model", .S "d"), ("Year", .S "bad")]
      (by decide) (by decide) rfl).1
      [[("ID", .S "a"), ("Make", .S "m"), ("Model", .S "d"), ("Year", .S "bad")]]
      [("id", "a")] none rfl rfl,
   (year_decode_get_vs_scan (fun _ => "T") "a"
      [("ID", .S "a"), ("Make", .S "m"), ("Model", .S "d"), ("Year", .S "bad")]
      (by decide) (by decide) rfl).2
      [[("ID", .S "a"), ("Make", .S "m"), ("Model", .S "d"), ("Year", .S "bad")]]
      "a" "m" "d" (by simp) (by decide) rfl rfl rfl⟩

end AwsSdkApi
